import Mathlib

/-!
Verification of the session lifecycle manager of `src/server.js`
(class `SessionManager` and the `launchBrowser` tool handler of
class `PlaywrightMCPServer`).

The JavaScript code is shallowly embedded as follows.

* Pure data (session entries, configuration objects) become Lean structures.
  JavaScript `null`/`undefined` fields become `Option`.
* Outcomes of calls into the external Playwright library (launch succeeded,
  page still responds to `evaluate`, a close call rejected, ...) are inputs
  of the embedded functions, gathered in small environment records
  (`CreateEnv`, `ProbeEnv`, `TeardownEnv`).  Browser processes, contexts and
  pages are identified by `Nat` identifiers.
* The `async` methods, which interleave at their `await` points, are
  embedded as a labelled transition system (`MgrState`, `Label`,
  `applyLabel`): each label executes one of the synchronous segments
  between two suspension points of the source, exactly as the JavaScript
  event loop would.  A trace is a `List Label`, executed by `run`.
  Logical callers of `getOrCreateSession` are elements of `MgrState.callers`;
  the `Phase` of a caller records at which `await` of `getOrCreateSession`
  (source lines 27-63) it is suspended.
* The periodic sweeper installed by `startCleanupTimer` (source lines
  173-177) is embedded separately as a counter automaton (`SweeperState`),
  since only the overlap behaviour of its passes is at issue.
-/

/-- Caller-supplied configuration object, the `config` argument of
`getOrCreateSession` / `createSession`.  A `none` field is an absent
property.  Besides `browserType` and `headless`, the source spreads any
further properties (`...otherConfig`) into the launch options; we model
one representative passthrough property, `timeout`, because the claims
ask whether the code ever sets one. -/
structure Config where
  browserType : Option String := none
  headless : Option Bool := none
  timeout : Option Nat := none
deriving DecidableEq

/-- The configuration record stored on a created session, from
`config: { browserType, headless, ...otherConfig }` in `createSession`
(source line 95), with the defaults of line 66 applied. -/
structure ResolvedConfig where
  browserType : String
  headless : Bool
  timeout : Option Nat
deriving DecidableEq

/-- Application of the destructuring defaults of source line 66:
`const { browserType = 'chromium', headless = true, ...otherConfig } = config`. -/
def resolveConfig (config : Config) : ResolvedConfig :=
  { browserType := config.browserType.getD "chromium"
    headless := config.headless.getD true
    timeout := config.timeout }

/-- A session entry as stored in `this.sessions`
(source lines 88-96).  `browser`, `context`, `page` identify the external
resources; they are `Option` so that structurally incomplete objects, which
`validateSession` must handle, are representable. -/
structure Session where
  sessionId : String
  browser : Option Nat
  context : Option Nat
  page : Option Nat
  createdAt : Nat
  lastUsed : Nat
  config : ResolvedConfig
deriving DecidableEq

/-- The options object passed to `browserClass.launch` at source lines 75-79:
`{ headless, args: ['--no-sandbox', '--disable-setuid-sandbox'], ...otherConfig }`.
The `timeout` field records the time bound the code passes to the call:
it is present exactly when the caller put one into `config`. -/
structure LaunchOptions where
  headless : Bool
  args : List String
  timeout : Option Nat
deriving DecidableEq

/-- The launch options built by `createSession` from a caller configuration. -/
def launchOptions (config : Config) : LaunchOptions :=
  { headless := config.headless.getD true
    args := ["--no-sandbox", "--disable-setuid-sandbox"]
    timeout := config.timeout }

/-- An invocation of the external resource library, together with the time
bound the manager code passes for it (`none` = the code passes no bound). -/
structure ExternalCall where
  name : String
  timeout : Option Nat
deriving DecidableEq

/-- The liveness probe of `validateSession`, source line 122:
`await session.page.evaluate('1+1')` — called with no options argument. -/
def validationProbeCall : ExternalCall := { name := "page.evaluate(1+1)", timeout := none }

/-- The page teardown call of `cleanupSession`, source line 152:
`session.page.close()` — no options argument. -/
def pageCloseCall : ExternalCall := { name := "page.close", timeout := none }

/-- The context teardown call of `cleanupSession`, source line 157:
`session.context.close()` — no options argument. -/
def contextCloseCall : ExternalCall := { name := "context.close", timeout := none }

/-- The browser teardown call of `cleanupSession`, source line 162:
`session.browser.close()` — no options argument. -/
def browserCloseCall : ExternalCall := { name := "browser.close", timeout := none }

/-- Outcomes of the external probes performed by `validateSession`:
whether `session.browser.isConnected()` reports `true`, and whether the
`page.evaluate('1+1')` round trip rejects. -/
structure ProbeEnv where
  connected : Bool
  evalFails : Bool
deriving DecidableEq

/-- Embedding of `validateSession` (source lines 109-128).  The structural
check of line 110 is `!session || !session.page || !session.browser`; the
`try`/`catch` of lines 114-127 turns a disconnected browser or any probe
error into `false`, so the function is total and Boolean-valued. -/
def validateSession (session : Option Session) (env : ProbeEnv) : Bool :=
  match session with
  | none => false
  | some s =>
    if s.page.isNone || s.browser.isNone then false
    else if !env.connected then false
    else if env.evalFails then false
    else true

/-- One teardown step of `cleanupSession`, in source order. -/
inductive CloseStep
  | closePage
  | closeContext
  | closeBrowser
deriving DecidableEq

/-- Outcomes of the external calls made during `cleanupSession`:
the synchronous guards `page.isClosed()` (line 151) and
`browser.isConnected()` (line 161), and whether each of the three close
calls rejects (each rejection is swallowed by its `.catch`). -/
structure TeardownEnv where
  pageClosed : Bool
  browserConnected : Bool
  pageCloseFails : Bool
  contextCloseFails : Bool
  browserCloseFails : Bool
deriving DecidableEq

/-- Result of one `cleanupSession` call: the close calls attempted in
order, the subset of them whose promise rejected (rejections are caught
and only logged), and the sessions map after the `finally` block. -/
structure CleanupResult where
  attempted : List CloseStep
  failures : List CloseStep
  sessions : String → Option Session

/-- Whether a given close step fails in a given environment. -/
def closeFails (env : TeardownEnv) : CloseStep → Bool
  | CloseStep.closePage => env.pageCloseFails
  | CloseStep.closeContext => env.contextCloseFails
  | CloseStep.closeBrowser => env.browserCloseFails

/-- Embedding of `cleanupSession` (source lines 143-171).  If the key is
absent the method returns at line 145 without touching anything.
Otherwise it closes page (guarded by `page && !page.isClosed()`), then
context (guarded by `context`), then browser (guarded by
`browser && browser.isConnected()`); every close carries a `.catch`, so a
rejected close never aborts the following steps; the `finally` block
(line 168) always deletes the entry from the map. -/
def cleanupSession (sessions : String → Option Session) (sessionId : String)
    (env : TeardownEnv) : CleanupResult :=
  match sessions sessionId with
  | none => { attempted := [], failures := [], sessions := sessions }
  | some s =>
    let att :=
      (if s.page.isSome && !env.pageClosed then [CloseStep.closePage] else []) ++
      (if s.context.isSome then [CloseStep.closeContext] else []) ++
      (if s.browser.isSome && env.browserConnected then [CloseStep.closeBrowser] else [])
    { attempted := att
      failures := att.filter (closeFails env)
      sessions := fun k => if k = sessionId then none else sessions k }

/-- Outcomes of the three external creation steps of `createSession`
(launch, `browser.newContext()`, `context.newPage()`), and the identifiers
of the resources they produce when they succeed. -/
structure CreateEnv where
  launchOk : Bool
  newContextOk : Bool
  newPageOk : Bool
  browserId : Nat
  contextId : Nat
  pageId : Nat
deriving DecidableEq

instance {ε α : Type} [DecidableEq ε] [DecidableEq α] : DecidableEq (Except ε α) := fun x y =>
  match x, y with
  | Except.error a, Except.error b =>
    if h : a = b then Decidable.isTrue (congrArg Except.error h)
    else Decidable.isFalse (fun hc => h (Except.error.inj hc))
  | Except.ok a, Except.ok b =>
    if h : a = b then Decidable.isTrue (congrArg Except.ok h)
    else Decidable.isFalse (fun hc => h (Except.ok.inj hc))
  | Except.error _, Except.ok _ => Decidable.isFalse (fun hc => Except.noConfusion hc)
  | Except.ok _, Except.error _ => Decidable.isFalse (fun hc => Except.noConfusion hc)

/-- Result of one `createSession` call: the session entry or the error
thrown at line 105, plus the partially created resources closed by the
catch block of lines 97-104 (context first, then browser, each close
guarded by a swallow-all `.catch`) before the error is thrown. -/
structure CreateResult where
  result : Except String Session
  closedContexts : List Nat
  closedBrowsers : List Nat
deriving DecidableEq

/-- Embedding of `createSession` (source lines 65-107).  The three steps
run in order; as soon as one fails, the catch block closes whatever of
`context` and `browser` is already assigned and rethrows
`Failed to create session ...`. -/
def createSession (sessionId : String) (config : Config) (env : CreateEnv)
    (now : Nat) : CreateResult :=
  let rc := resolveConfig config
  if !env.launchOk then
    { result := Except.error ("Failed to create session " ++ sessionId)
      closedContexts := [], closedBrowsers := [] }
  else if !env.newContextOk then
    { result := Except.error ("Failed to create session " ++ sessionId)
      closedContexts := [], closedBrowsers := [env.browserId] }
  else if !env.newPageOk then
    { result := Except.error ("Failed to create session " ++ sessionId)
      closedContexts := [env.contextId], closedBrowsers := [env.browserId] }
  else
    { result := Except.ok
        { sessionId := sessionId
          browser := some env.browserId
          context := some env.contextId
          page := some env.pageId
          createdAt := now
          lastUsed := now
          config := rc }
      closedContexts := [], closedBrowsers := [] }

/-- The text produced by the `launchBrowser` tool handler on success
(source line 439); it interpolates the *stored* `session.config.browserType`
of the session returned by `getOrCreateSession`. -/
def launchBrowserMessage (sessionId : String) (session : Session) : String :=
  "Browser launched successfully with session ID: " ++ sessionId ++
    " (" ++ session.config.browserType ++ ")"

/-- The suspension point of `getOrCreateSession` (source lines 27-63) at
which one logical caller is currently parked, together with the data its
continuation holds.

* `entry`: about to execute the synchronous block of lines 28-51.
* `waitPending a`: awaiting the stored pending promise of attempt `a`
  (line 31).
* `validating s`: awaiting `validateSession(session)` for the entry `s`
  read at line 36.
* `cleaning`: suspended inside `await cleanupSession(sessionId)` (line 43).
* `postCleanup`: resumed after that cleanup, about to execute lines 48-51.
* `awaitCreate a`: the originator of attempt `a`, awaiting its
  `launchPromise` (line 53).
* `done r`: the call returned `r` (or threw, for `r = .error _`). -/
inductive Phase
  | entry
  | waitPending (attempt : Nat)
  | validating (s : Session)
  | cleaning
  | postCleanup
  | awaitCreate (attempt : Nat)
  | done (r : Except String Session)
deriving DecidableEq

/-- One logical caller of `getOrCreateSession`: its session key, the
`config` argument it passed (`{}` when the calling tool passed none), and
its current suspension point. -/
structure Caller where
  key : String
  config : Config
  phase : Phase
deriving DecidableEq

/-- State of one `createSession` invocation (one `launchPromise`):
still running, or settled with a result that every awaiter observes. -/
inductive AttemptState
  | running (key : String) (config : Config)
  | settled (key : String) (result : Except String Session)
deriving DecidableEq

/-- Global state of the event-loop model: the two maps of `SessionManager`
(`this.sessions`, `this.pendingLaunches` — the latter holding the attempt
identifier of the stored promise), the `createSession` attempts, a counter
of `createSession` invocations per key, and the set of live (launched and
not yet closed) browser processes tagged with the key they were created
for.  `now` stands for `Date.now()`. -/
structure MgrState where
  sessions : String → Option Session
  pendingLaunches : String → Option Nat
  attempts : Nat → Option AttemptState
  nextAttempt : Nat
  factoryCalls : String → Nat
  liveBrowsers : List (String × Nat)
  now : Nat
  callers : List Caller

/-- One atomic event of the event loop: which suspended computation runs
its next synchronous segment, together with the outcome of the external
call it was awaiting.

* `entry i`: caller `i` executes lines 28-51 up to its next suspension.
* `validated i alive`: caller `i`'s `validateSession` resolves with verdict
  `alive` (the probe outcome is the external world's choice; a browser can
  die out of band at any time).
* `cleaned i`: caller `i`'s `cleanupSession` finishes: the entry currently
  in the map (if any) has its resources closed and is deleted.
* `startCreate i`: caller `i` resumes after its cleanup and executes lines
  48-51: it invokes `createSession` and stores the new pending promise.
* `complete a env`: attempt `a`'s `createSession` body finishes, its three
  external steps having the outcomes in `env`; the promise settles.
* `resumeWaiter i`: caller `i`, awaiting a stored pending promise that has
  settled, returns its result (line 31).
* `resumeOrig i`: caller `i`, the originator awaiting its own settled
  `launchPromise`, executes lines 53-62: on success it publishes the entry,
  and in both cases the `finally` clears the pending marker. -/
inductive Label
  | entry (i : Nat)
  | validated (i : Nat) (alive : Bool)
  | cleaned (i : Nat)
  | startCreate (i : Nat)
  | complete (a : Nat) (env : CreateEnv)
  | resumeWaiter (i : Nat)
  | resumeOrig (i : Nat)
deriving DecidableEq

/-- Whether a label is a `complete` event. -/
def Label.isComplete : Label → Bool
  | Label.complete _ _ => true
  | _ => false

/-- Whether a label is an `entry` event. -/
def Label.isEntry : Label → Bool
  | Label.entry _ => true
  | _ => false

/-- Source lines 48-51, executed synchronously: `createSession` is invoked
(one factory call), the resulting `launchPromise` is stored in
`pendingLaunches` — overwriting any marker already there, the code does
not re-check the map — and the caller suspends at `await launchPromise`. -/
def startCreation (st : MgrState) (i : Nat) (c : Caller) : MgrState :=
  { st with
    pendingLaunches := fun k => if k = c.key then some st.nextAttempt else st.pendingLaunches k
    attempts := fun n =>
      if n = st.nextAttempt then some (AttemptState.running c.key c.config) else st.attempts n
    nextAttempt := st.nextAttempt + 1
    factoryCalls := fun k => if k = c.key then st.factoryCalls k + 1 else st.factoryCalls k
    callers := st.callers.set i { c with phase := Phase.awaitCreate st.nextAttempt } }

/-- Source lines 28-51 for caller `i`: the pending check of line 29, then
the existence check of line 35 (suspending into validation), else the
creation block of lines 48-51. -/
def stepEntry (st : MgrState) (i : Nat) : MgrState :=
  match st.callers[i]? with
  | none => st
  | some c =>
    match c.phase with
    | Phase.entry =>
      match st.pendingLaunches c.key with
      | some a => { st with callers := st.callers.set i { c with phase := Phase.waitPending a } }
      | none =>
        match st.sessions c.key with
        | some s => { st with callers := st.callers.set i { c with phase := Phase.validating s } }
        | none => startCreation st i c
    | _ => st

/-- Source lines 37-44 for caller `i`: on a `true` verdict the code sets
`session.lastUsed = Date.now()` on the session *object* it read (the map
still holds that object only if no one replaced it meanwhile) and returns
it; on `false` it proceeds into `await cleanupSession(sessionId)`. -/
def stepValidated (st : MgrState) (i : Nat) (alive : Bool) : MgrState :=
  match st.callers[i]? with
  | none => st
  | some c =>
    match c.phase with
    | Phase.validating s =>
      if alive then
        let s2 := { s with lastUsed := st.now }
        let sessions2 : String → Option Session :=
          match st.sessions c.key with
          | some cur =>
            if cur = s then fun k => if k = c.key then some s2 else st.sessions k
            else st.sessions
          | none => st.sessions
        { st with
          sessions := sessions2
          callers := st.callers.set i { c with phase := Phase.done (Except.ok s2) } }
      else
        { st with callers := st.callers.set i { c with phase := Phase.cleaning } }
    | _ => st

/-- The tail of `cleanupSession` (lines 143-171) run on behalf of caller
`i`: the entry currently in the map (re-read at line 144; possibly absent,
in which case nothing happens) has its browser closed and is deleted by the
`finally`; the caller then resumes at line 48. -/
def stepCleaned (st : MgrState) (i : Nat) : MgrState :=
  match st.callers[i]? with
  | none => st
  | some c =>
    match c.phase with
    | Phase.cleaning =>
      match st.sessions c.key with
      | some s =>
        { st with
          sessions := fun k => if k = c.key then none else st.sessions k
          liveBrowsers := st.liveBrowsers.filter
            (fun p => !(p.1 = c.key && some p.2 = s.browser))
          callers := st.callers.set i { c with phase := Phase.postCleanup } }
      | none =>
        { st with callers := st.callers.set i { c with phase := Phase.postCleanup } }
    | _ => st

/-- Caller `i` resumes after its cleanup and executes lines 48-51. -/
def stepStartCreate (st : MgrState) (i : Nat) : MgrState :=
  match st.callers[i]? with
  | none => st
  | some c =>
    match c.phase with
    | Phase.postCleanup => startCreation st i c
    | _ => st

/-- The body of attempt `a`'s `createSession` finishes with the external
outcomes `env` and its promise settles.  A fully successful creation
leaves a newly launched browser process live, tagged with the key it was
created for; a partial failure has already closed its partial resources
(catch block, lines 97-104). -/
def stepComplete (st : MgrState) (a : Nat) (env : CreateEnv) : MgrState :=
  match st.attempts a with
  | some (AttemptState.running key cfg) =>
    let res := createSession key cfg env st.now
    let st2 := { st with
      attempts := fun n => if n = a then some (AttemptState.settled key res.result) else st.attempts n }
    match res.result with
    | Except.ok _ => { st2 with liveBrowsers := (key, env.browserId) :: st2.liveBrowsers }
    | Except.error _ => st2
  | _ => st

/-- Caller `i`, parked at line 31 on a pending promise that has settled,
returns that promise's result (it does not publish anything). -/
def stepResumeWaiter (st : MgrState) (i : Nat) : MgrState :=
  match st.callers[i]? with
  | none => st
  | some c =>
    match c.phase with
    | Phase.waitPending a =>
      match st.attempts a with
      | some (AttemptState.settled _ r) =>
        { st with callers := st.callers.set i { c with phase := Phase.done r } }
      | _ => st
    | _ => st

/-- The originator caller `i` resumes at line 53 once its `launchPromise`
has settled: on success, lines 54-56 publish the entry into `sessions` and
return it; on failure, line 59 rethrows; in both cases the `finally` of
line 61 deletes the pending marker — unconditionally. -/
def stepResumeOrig (st : MgrState) (i : Nat) : MgrState :=
  match st.callers[i]? with
  | none => st
  | some c =>
    match c.phase with
    | Phase.awaitCreate a =>
      match st.attempts a with
      | some (AttemptState.settled _ r) =>
        match r with
        | Except.ok s =>
          { st with
            sessions := fun k => if k = c.key then some s else st.sessions k
            pendingLaunches := fun k => if k = c.key then none else st.pendingLaunches k
            callers := st.callers.set i { c with phase := Phase.done (Except.ok s) } }
        | Except.error e =>
          { st with
            pendingLaunches := fun k => if k = c.key then none else st.pendingLaunches k
            callers := st.callers.set i { c with phase := Phase.done (Except.error e) } }
      | _ => st
    | _ => st

/-- Execute one event. -/
def applyLabel (st : MgrState) : Label → MgrState
  | Label.entry i => stepEntry st i
  | Label.validated i alive => stepValidated st i alive
  | Label.cleaned i => stepCleaned st i
  | Label.startCreate i => stepStartCreate st i
  | Label.complete a env => stepComplete st a env
  | Label.resumeWaiter i => stepResumeWaiter st i
  | Label.resumeOrig i => stepResumeOrig st i

/-- Execute a trace of events, left to right. -/
def run (st : MgrState) (t : List Label) : MgrState := t.foldl applyLabel st

/-- Initial state for a set of concurrent `getOrCreateSession` calls for
key `k` (one per element of `cfgs`) against a manager holding no entry and
no pending creation for any key. -/
def initNoEntry (k : String) (cfgs : List Config) : MgrState :=
  { sessions := fun _ => none
    pendingLaunches := fun _ => none
    attempts := fun _ => none
    nextAttempt := 0
    factoryCalls := fun _ => 0
    liveBrowsers := []
    now := 0
    callers := cfgs.map (fun cfg => { key := k, config := cfg, phase := Phase.entry }) }

/-- State of the expiry sweeper installed by `startCleanupTimer` (source
lines 173-177): how many `cleanupExpiredSessions` passes are currently
executing, and how many have been started in total. -/
structure SweeperState where
  running : Nat
  started : Nat
deriving DecidableEq

/-- An event of the sweeper: the interval timer fires, or one running
`cleanupExpiredSessions` pass returns. -/
inductive SweepEvent
  | tick
  | finish
deriving DecidableEq

/-- Embedding of the timer behaviour of `startCleanupTimer`:
`setInterval(async () => { await this.cleanupExpiredSessions(); }, interval)`.
Under the JavaScript timer semantics every tick invokes the callback, and
the callback immediately starts a new `cleanupExpiredSessions` pass; the
interval timer neither waits for nor checks a pass that is still running
(the source has no re-entrancy guard), so `tick` increments the number of
running passes unconditionally. -/
def sweepStep (s : SweeperState) : SweepEvent → SweeperState
  | SweepEvent.tick => { running := s.running + 1, started := s.started + 1 }
  | SweepEvent.finish => { s with running := s.running - 1 }

/-- Execute a sequence of sweeper events. -/
def sweepRun (s : SweeperState) (es : List SweepEvent) : SweeperState :=
  es.foldl sweepStep s

/-- A creation environment in which all three creation steps succeed,
producing browser 1 / context 11 / page 21. -/
def envOkA : CreateEnv :=
  { launchOk := true, newContextOk := true, newPageOk := true
    browserId := 1, contextId := 11, pageId := 21 }

/-- A creation environment in which all three creation steps succeed,
producing browser 2 / context 12 / page 22. -/
def envOkB : CreateEnv :=
  { launchOk := true, newContextOk := true, newPageOk := true
    browserId := 2, contextId := 12, pageId := 22 }

/-- A structurally complete session entry for key `"s"` whose browser
process (identifier 100) has died out of band: it fails validation. -/
def deadEntry : Session :=
  { sessionId := "s", browser := some 100, context := some 101, page := some 102
    createdAt := 0, lastUsed := 0
    config := { browserType := "chromium", headless := true, timeout := none } }

/-- Initial state for the eviction race: the store holds `deadEntry` for
key `"s"` (its browser already dead, hence not live), no creation is
pending, and two callers concurrently invoke `getOrCreateSession("s")`. -/
def raceInit : MgrState :=
  { sessions := fun k => if k = "s" then some deadEntry else none
    pendingLaunches := fun _ => none
    attempts := fun _ => none
    nextAttempt := 0
    factoryCalls := fun _ => 0
    liveBrowsers := []
    now := 0
    callers := [{ key := "s", config := {}, phase := Phase.entry },
                { key := "s", config := {}, phase := Phase.entry }] }

/-- The racing interleaving: both callers pass the pending-launch check and
read the stale entry before either starts validating; both validations
fail; caller 0 evicts and starts a creation; caller 1's cleanup then finds
the key already gone, and its lines 48-51 start a second creation,
overwriting caller 0's pending marker; both creations succeed. -/
def raceTrace : List Label :=
  [Label.entry 0, Label.entry 1,
   Label.validated 0 false, Label.cleaned 0, Label.startCreate 0,
   Label.validated 1 false, Label.cleaned 1, Label.startCreate 1,
   Label.complete 0 envOkA, Label.complete 1 envOkB,
   Label.resumeOrig 0, Label.resumeOrig 1]

/-- A session entry created with `browserType: 'firefox', headless: false`,
as stored for key `"s"`. -/
def storedFirefox : Session :=
  { sessionId := "s", browser := some 100, context := some 101, page := some 102
    createdAt := 0, lastUsed := 0
    config := { browserType := "firefox", headless := false, timeout := none } }

/-- Initial state for implicit recreation: the store holds `stored` under
its key, and a single caller invokes `getOrCreateSession` with the
configuration argument `callerCfg`. -/
def recreateInit (stored : Session) (callerCfg : Config) : MgrState :=
  { sessions := fun k => if k = stored.sessionId then some stored else none
    pendingLaunches := fun _ => none
    attempts := fun _ => none
    nextAttempt := 0
    factoryCalls := fun _ => 0
    liveBrowsers := []
    now := 0
    callers := [{ key := stored.sessionId, config := callerCfg, phase := Phase.entry }] }

/-- The implicit-recreation execution: the stored entry fails validation,
is evicted, and the caller's creation completes with outcomes `env`. -/
def recreateTrace (env : CreateEnv) : List Label :=
  [Label.entry 0, Label.validated 0 false, Label.cleaned 0, Label.startCreate 0,
   Label.complete 0 env, Label.resumeOrig 0]

/-- Initial state for reuse of a valid entry: the store holds `s0` under
its key and one caller invokes `getOrCreateSession` with configuration
`cfg` at time `now`. -/
def reuseInit (s0 : Session) (cfg : Config) (now : Nat) : MgrState :=
  { sessions := fun k => if k = s0.sessionId then some s0 else none
    pendingLaunches := fun _ => none
    attempts := fun _ => none
    nextAttempt := 0
    factoryCalls := fun _ => 0
    liveBrowsers := []
    now := now
    callers := [{ key := s0.sessionId, config := cfg, phase := Phase.entry }] }

/-- The reuse execution: the single caller reads the existing entry and its
validation succeeds. -/
def reuseTrace : List Label := [Label.entry 0, Label.validated 0 true]

/-- Invariant of the single-flight scenario while no `createSession` body
has yet finished: the store has no entry for `k`; every caller is parked
at entry, on the pending promise of attempt 0, or as attempt 0's
originator; and either nothing has started yet, or exactly attempt 0 is
running with its marker in `pendingLaunches` and exactly one factory call
made. -/
structure InvA (k : String) (st : MgrState) : Prop where
  sess : st.sessions k = none
  keys : ∀ c ∈ st.callers, c.key = k
  phases : ∀ c ∈ st.callers,
    c.phase = Phase.entry ∨ c.phase = Phase.waitPending 0 ∨ c.phase = Phase.awaitCreate 0
  attSide : ∀ n, n ≠ 0 → st.attempts n = none
  state01 :
    (st.pendingLaunches k = none ∧ st.nextAttempt = 0 ∧ st.factoryCalls k = 0 ∧
      st.attempts 0 = none ∧ ∀ c ∈ st.callers, c.phase = Phase.entry) ∨
    (st.pendingLaunches k = some 0 ∧ st.nextAttempt = 1 ∧ st.factoryCalls k = 1 ∧
      ∃ cfg, st.attempts 0 = some (AttemptState.running k cfg))

/-- Invariant of the single-flight scenario once entries have stopped (the
callers are all "concurrent with the creation"): every caller is still
parked at entry, on attempt 0, or has returned exactly the settled result
of attempt 0; at most one factory call was ever made for `k`, and exactly
one as soon as any caller has passed its entry block. -/
structure InvB (k : String) (st : MgrState) : Prop where
  keys : ∀ c ∈ st.callers, c.key = k
  phases : ∀ c ∈ st.callers,
    c.phase = Phase.entry ∨ c.phase = Phase.waitPending 0 ∨ c.phase = Phase.awaitCreate 0 ∨
    ∃ r, c.phase = Phase.done r ∧ ∃ k2, st.attempts 0 = some (AttemptState.settled k2 r)
  attSide : ∀ n, n ≠ 0 → st.attempts n = none
  factoryLe : st.factoryCalls k ≤ 1
  factoryPos : ∀ c ∈ st.callers, c.phase ≠ Phase.entry → st.factoryCalls k = 1

/-- Number of timer ticks in a sweeper event sequence. -/
def countTicks : List SweepEvent → Nat
  | [] => 0
  | SweepEvent.tick :: es => countTicks es + 1
  | SweepEvent.finish :: es => countTicks es

/-- A session entry whose `context` sub-part is null while browser and page
are present. -/
def noContextSession : Session :=
  { sessionId := "s", browser := some 1, context := none, page := some 2
    createdAt := 0, lastUsed := 0
    config := { browserType := "chromium", headless := true, timeout := none } }

/-- A session entry whose `browser` sub-part is null. -/
def noBrowserSession : Session :=
  { sessionId := "s", browser := none, context := some 1, page := some 2
    createdAt := 0, lastUsed := 0
    config := { browserType := "chromium", headless := true, timeout := none } }

/-- A session entry whose `page` sub-part is null. -/
def noPageSession : Session :=
  { sessionId := "s", browser := some 1, context := some 2, page := none
    createdAt := 0, lastUsed := 0
    config := { browserType := "chromium", headless := true, timeout := none } }

/-- A manager state in which the single caller for key `"s"` is the
originator of attempt 0, and attempt 0 has settled with a creation
failure. -/
def failedAttemptState : MgrState :=
  { sessions := fun _ => none
    pendingLaunches := fun k => if k = "s" then some 0 else none
    attempts := fun n =>
      if n = 0 then some (AttemptState.settled "s" (Except.error "boom")) else none
    nextAttempt := 1
    factoryCalls := fun k => if k = "s" then 1 else 0
    liveBrowsers := []
    now := 0
    callers := [{ key := "s", config := {}, phase := Phase.awaitCreate 0 }] }

/-- A creation environment in which the launch succeeds and the context
step succeeds but the page step fails. -/
def envPageFails : CreateEnv :=
  { launchOk := true, newContextOk := true, newPageOk := false
    browserId := 7, contextId := 8, pageId := 9 }

/-- Pointwise property preservation under `List.set`. -/
theorem forall_mem_set {α : Type} {P : α → Prop} {l : List α} {i : Nat} {b : α}
    (h : ∀ x ∈ l, P x) (hb : P b) : ∀ x ∈ l.set i b, P x := by
  intro x hx
  rcases List.mem_or_eq_of_mem_set hx with hx2 | rfl
  · exact h x hx2
  · exact hb

/-- `InvA` is preserved by every event other than a completion. -/
theorem invA_step (k : String) (st : MgrState) (l : Label)
    (hA : InvA k st) (hl : l.isComplete = false) : InvA k (applyLabel st l) := by
  cases l with
  | entry i =>
    show InvA k (stepEntry st i)
    unfold stepEntry
    split
    · exact hA
    · rename_i c heq
      have hmem := List.getElem?_mem heq
      have hkey := hA.keys c hmem
      split
      · -- line 29: a pending launch exists or not
        split
        · -- pending marker present: join it
          rename_i heqph a heqp
          rw [hkey] at heqp
          rcases hA.state01 with ⟨hp, _, _, _, _⟩ | ⟨hp, hn, hf, cfg, hat⟩
          · rw [hp] at heqp; cases heqp
          · rw [hp] at heqp
            injection heqp with ha
            subst ha
            refine ⟨hA.sess, forall_mem_set hA.keys hkey,
              forall_mem_set hA.phases (Or.inr (Or.inl rfl)), hA.attSide, ?_⟩
            right; exact ⟨hp, hn, hf, cfg, hat⟩
        · -- no pending marker: read the store
          split
          · -- an entry exists: impossible, the store is empty for k
            rename_i heqph heqp s heqs
            rw [hkey, hA.sess] at heqs
            cases heqs
          · -- store empty: lines 48-51 start the creation
            rename_i heqp hx heqs
            rw [hkey] at heqp
            rcases hA.state01 with ⟨hp, hn, hf, hat, hall⟩ | ⟨hp, _, _, _, _⟩
            · unfold startCreation
              refine ⟨hA.sess, forall_mem_set hA.keys hkey, ?_, ?_, ?_⟩
              · refine forall_mem_set hA.phases ?_
                right; right
                show Phase.awaitCreate st.nextAttempt = Phase.awaitCreate 0
                rw [hn]
              · intro n hn2
                show (if n = st.nextAttempt then some (AttemptState.running c.key c.config)
                  else st.attempts n) = none
                rw [hn, if_neg hn2]
                exact hA.attSide n hn2
              · right
                refine ⟨?_, ?_, ?_, ⟨c.config, ?_⟩⟩
                · show (if k = c.key then some st.nextAttempt else st.pendingLaunches k) = some 0
                  simp [hkey, hn]
                · show st.nextAttempt + 1 = 1
                  rw [hn]
                · show (if k = c.key then st.factoryCalls k + 1 else st.factoryCalls k) = 1
                  simp [hkey, hf]
                · show (if 0 = st.nextAttempt then some (AttemptState.running c.key c.config)
                    else st.attempts 0) = some (AttemptState.running k c.config)
                  simp [hkey, hn]
            · rw [hp] at heqp; cases heqp
      · exact hA
  | validated i alive =>
    show InvA k (stepValidated st i alive)
    unfold stepValidated
    split
    · exact hA
    · rename_i c heq
      split
      · rename_i s heqph
        have hph := hA.phases c (List.getElem?_mem heq)
        rw [heqph] at hph
        simp at hph
      · exact hA
  | cleaned i =>
    show InvA k (stepCleaned st i)
    unfold stepCleaned
    split
    · exact hA
    · rename_i c heq
      split
      · rename_i heqph
        have hph := hA.phases c (List.getElem?_mem heq)
        rw [heqph] at hph
        simp at hph
      · exact hA
  | startCreate i =>
    show InvA k (stepStartCreate st i)
    unfold stepStartCreate
    split
    · exact hA
    · rename_i c heq
      split
      · rename_i heqph
        have hph := hA.phases c (List.getElem?_mem heq)
        rw [heqph] at hph
        simp at hph
      · exact hA
  | complete a env => simp [Label.isComplete] at hl
  | resumeWaiter i =>
    show InvA k (stepResumeWaiter st i)
    unfold stepResumeWaiter
    split
    · exact hA
    · rename_i c heq
      split
      · rename_i a heqph
        split
        · rename_i k2 r heqa
          have hph := hA.phases c (List.getElem?_mem heq)
          rw [heqph] at hph
          rcases hph with h1 | h1 | h1
          · simp at h1
          · injection h1 with ha
            subst ha
            rcases hA.state01 with ⟨_, _, _, hat, _⟩ | ⟨_, _, _, cfg, hat⟩ <;>
              rw [hat] at heqa <;> simp at heqa
          · simp at h1
        · exact hA
      · exact hA
  | resumeOrig i =>
    show InvA k (stepResumeOrig st i)
    unfold stepResumeOrig
    split
    · exact hA
    · rename_i c heq
      split
      · rename_i a heqph
        split
        · rename_i k2 r heqa
          have hph := hA.phases c (List.getElem?_mem heq)
          rw [heqph] at hph
          rcases hph with h1 | h1 | h1
          · simp at h1
          · simp at h1
          · injection h1 with ha
            subst ha
            rcases hA.state01 with ⟨_, _, _, hat, _⟩ | ⟨_, _, _, cfg, hat⟩ <;>
              rw [hat] at heqa <;> simp at heqa
        · exact hA
      · exact hA

/-- `InvA` is preserved by any trace without completion events. -/
theorem invA_run (k : String) (st : MgrState) (t : List Label)
    (hA : InvA k st) (ht : ∀ l ∈ t, l.isComplete = false) : InvA k (run st t) := by
  induction t generalizing st with
  | nil => exact hA
  | cons l t ih =>
    exact ih (applyLabel st l) (invA_step k st l hA (ht l (List.mem_cons_self l t)))
      (fun l2 hl2 => ht l2 (List.mem_cons_of_mem l hl2))

/-- A state satisfying the no-completion invariant satisfies the
no-new-entry invariant. -/
theorem invA_to_invB (k : String) (st : MgrState) (hA : InvA k st) : InvB k st := by
  refine ⟨hA.keys, ?_, hA.attSide, ?_, ?_⟩
  · intro c hc
    rcases hA.phases c hc with h | h | h
    · exact Or.inl h
    · exact Or.inr (Or.inl h)
    · exact Or.inr (Or.inr (Or.inl h))
  · rcases hA.state01 with ⟨_, _, hf, _, _⟩ | ⟨_, _, hf, _⟩ <;> rw [hf] <;> simp
  · intro c hc hne
    rcases hA.state01 with ⟨_, _, _, _, hall⟩ | ⟨_, _, hf, _⟩
    · exact absurd (hall c hc) hne
    · exact hf

/-- `InvB` is preserved by every event other than an entry. -/
theorem invB_step (k : String) (st : MgrState) (l : Label)
    (hB : InvB k st) (hl : l.isEntry = false) : InvB k (applyLabel st l) := by
  cases l with
  | entry i => simp [Label.isEntry] at hl
  | validated i alive =>
    show InvB k (stepValidated st i alive)
    unfold stepValidated
    split
    · exact hB
    · rename_i c heq
      split
      · rename_i s heqph
        have hph := hB.phases c (List.getElem?_mem heq)
        rw [heqph] at hph
        rcases hph with h1 | h1 | h1 | ⟨r, h1, _⟩ <;> simp at h1
      · exact hB
  | cleaned i =>
    show InvB k (stepCleaned st i)
    unfold stepCleaned
    split
    · exact hB
    · rename_i c heq
      split
      · rename_i heqph
        have hph := hB.phases c (List.getElem?_mem heq)
        rw [heqph] at hph
        rcases hph with h1 | h1 | h1 | ⟨r, h1, _⟩ <;> simp at h1
      · exact hB
  | startCreate i =>
    show InvB k (stepStartCreate st i)
    unfold stepStartCreate
    split
    · exact hB
    · rename_i c heq
      split
      · rename_i heqph
        have hph := hB.phases c (List.getElem?_mem heq)
        rw [heqph] at hph
        rcases hph with h1 | h1 | h1 | ⟨r, h1, _⟩ <;> simp at h1
      · exact hB
  | complete a env =>
    show InvB k (stepComplete st a env)
    unfold stepComplete
    split
    · rename_i key cfg heqa
      by_cases ha : a = 0
      · subst ha
        have hnodone : ∀ c ∈ st.callers,
            c.phase = Phase.entry ∨ c.phase = Phase.waitPending 0 ∨
            c.phase = Phase.awaitCreate 0 := by
          intro c hc
          rcases hB.phases c hc with h | h | h | ⟨r, hr, k2, hsett⟩
          · exact Or.inl h
          · exact Or.inr (Or.inl h)
          · exact Or.inr (Or.inr h)
          · rw [heqa] at hsett
            injection hsett with hx
            cases hx
        have hphases : ∀ c ∈ st.callers,
            c.phase = Phase.entry ∨ c.phase = Phase.waitPending 0 ∨
            c.phase = Phase.awaitCreate 0 ∨
            ∃ r, c.phase = Phase.done r ∧ ∃ k2,
              (if (0 : Nat) = 0 then some (AttemptState.settled key
                (createSession key cfg env st.now).result) else st.attempts 0) =
              some (AttemptState.settled k2 r) := by
          intro c hc
          rcases hnodone c hc with h | h | h
          · exact Or.inl h
          · exact Or.inr (Or.inl h)
          · exact Or.inr (Or.inr (Or.inl h))
        have hside : ∀ n, n ≠ (0 : Nat) →
            (if n = 0 then some (AttemptState.settled key
              (createSession key cfg env st.now).result) else st.attempts n) = none := by
          intro n hn2
          rw [if_neg hn2]
          exact hB.attSide n hn2
        dsimp only
        split
        · exact ⟨hB.keys, hphases, hside, hB.factoryLe, hB.factoryPos⟩
        · exact ⟨hB.keys, hphases, hside, hB.factoryLe, hB.factoryPos⟩
      · rw [hB.attSide a ha] at heqa
        cases heqa
    · exact hB
  | resumeWaiter i =>
    show InvB k (stepResumeWaiter st i)
    unfold stepResumeWaiter
    split
    · exact hB
    · rename_i c heq
      split
      · rename_i a heqph
        split
        · rename_i k2 r heqa
          have hmem := List.getElem?_mem heq
          have hkey := hB.keys c hmem
          have hph := hB.phases c hmem
          rw [heqph] at hph
          have ha : a = 0 := by
            rcases hph with h1 | h1 | h1 | ⟨r2, h1, _⟩
            · simp at h1
            · injection h1 with h2
            · simp at h1
            · simp at h1
          subst ha
          have hfac : st.factoryCalls k = 1 := by
            refine hB.factoryPos c hmem ?_
            rw [heqph]
            simp
          refine ⟨forall_mem_set hB.keys hkey, ?_, hB.attSide, hB.factoryLe,
            forall_mem_set hB.factoryPos (fun _ => hfac)⟩
          refine forall_mem_set hB.phases ?_
          right; right; right
          exact ⟨r, rfl, k2, heqa⟩
        · exact hB
      · exact hB
  | resumeOrig i =>
    show InvB k (stepResumeOrig st i)
    unfold stepResumeOrig
    split
    · exact hB
    · rename_i c heq
      split
      · rename_i a heqph
        split
        · rename_i k2 r heqa
          have hmem := List.getElem?_mem heq
          have hkey := hB.keys c hmem
          have hph := hB.phases c hmem
          rw [heqph] at hph
          have ha : a = 0 := by
            rcases hph with h1 | h1 | h1 | ⟨r2, h1, _⟩
            · simp at h1
            · simp at h1
            · injection h1 with h2
            · simp at h1
          subst ha
          have hfac : st.factoryCalls k = 1 := by
            refine hB.factoryPos c hmem ?_
            rw [heqph]
            simp
          split
          · rename_i s
            refine ⟨forall_mem_set hB.keys hkey, ?_, hB.attSide, hB.factoryLe,
              forall_mem_set hB.factoryPos (fun _ => hfac)⟩
            refine forall_mem_set hB.phases ?_
            right; right; right
            exact ⟨Except.ok s, rfl, k2, heqa⟩
          · rename_i e
            refine ⟨forall_mem_set hB.keys hkey, ?_, hB.attSide, hB.factoryLe,
              forall_mem_set hB.factoryPos (fun _ => hfac)⟩
            refine forall_mem_set hB.phases ?_
            right; right; right
            exact ⟨Except.error e, rfl, k2, heqa⟩
        · exact hB
      · exact hB

/-- `InvB` is preserved by any trace without entry events. -/
theorem invB_run (k : String) (st : MgrState) (t : List Label)
    (hB : InvB k st) (ht : ∀ l ∈ t, l.isEntry = false) : InvB k (run st t) := by
  induction t generalizing st with
  | nil => exact hB
  | cons l t ih =>
    exact ih (applyLabel st l) (invB_step k st l hB (ht l (List.mem_cons_self l t)))
      (fun l2 hl2 => ht l2 (List.mem_cons_of_mem l hl2))

/-- The initial single-flight state satisfies `InvA`. -/
theorem invA_init (k : String) (cfgs : List Config) : InvA k (initNoEntry k cfgs) := by
  refine ⟨rfl, ?_, ?_, fun n _ => rfl, Or.inl ⟨rfl, rfl, rfl, rfl, ?_⟩⟩
  · intro c hc
    rcases List.mem_map.mp hc with ⟨cfg, _, rfl⟩
    rfl
  · intro c hc
    rcases List.mem_map.mp hc with ⟨cfg, _, rfl⟩
    exact Or.inl rfl
  · intro c hc
    rcases List.mem_map.mp hc with ⟨cfg, _, rfl⟩
    rfl

/-- C1.  Single-flight creation: start from a manager with no entry for
key `k` and `N ≥ 2` concurrent `getOrCreateSession(k, ·)` calls.  In any
interleaving in which the callers are concurrent with the creation — every
caller executes its entry block (lines 28-51) before any `createSession`
body finishes, and no further entry happens afterwards — `createSession`
is invoked at most once, exactly once as soon as any caller has passed its
entry block, and any two callers that have resolved resolved to the very
same result: the same session object on success, the same error on
failure.  In particular a caller arriving while the creation is in flight
receives the same eventual result as the original requester. -/
theorem getOrCreateSession_single_flight (k : String) (cfgs : List Config)
    (t1 t2 : List Label) (hN : 2 ≤ cfgs.length)
    (h1 : ∀ l ∈ t1, l.isComplete = false)
    (h2 : ∀ l ∈ t2, l.isEntry = false) :
    (run (initNoEntry k cfgs) (t1 ++ t2)).factoryCalls k ≤ 1 ∧
    (∀ c ∈ (run (initNoEntry k cfgs) (t1 ++ t2)).callers,
      c.phase ≠ Phase.entry → (run (initNoEntry k cfgs) (t1 ++ t2)).factoryCalls k = 1) ∧
    (∀ c1 ∈ (run (initNoEntry k cfgs) (t1 ++ t2)).callers,
     ∀ c2 ∈ (run (initNoEntry k cfgs) (t1 ++ t2)).callers,
     ∀ r1 r2, c1.phase = Phase.done r1 → c2.phase = Phase.done r2 → r1 = r2) := by
  have hB : InvB k (run (initNoEntry k cfgs) (t1 ++ t2)) := by
    have hrun : run (initNoEntry k cfgs) (t1 ++ t2) = run (run (initNoEntry k cfgs) t1) t2 := by
      simp [run, List.foldl_append]
    rw [hrun]
    exact invB_run k _ t2 (invA_to_invB k _ (invA_run k _ t1 (invA_init k cfgs) h1)) h2
  refine ⟨hB.factoryLe, hB.factoryPos, ?_⟩
  intro c1 hc1 c2 hc2 r1 r2 hr1 hr2
  have hp1 := hB.phases c1 hc1
  have hp2 := hB.phases c2 hc2
  rw [hr1] at hp1
  rw [hr2] at hp2
  rcases hp1 with h | h | h | ⟨ra, hra, ka, hsa⟩
  · simp at h
  · simp at h
  · simp at h
  rcases hp2 with h | h | h | ⟨rb, hrb, kb, hsb⟩
  · simp at h
  · simp at h
  · simp at h
  injection hra with hra2
  injection hrb with hrb2
  subst hra2
  subst hrb2
  rw [hsa, Option.some.injEq, AttemptState.settled.injEq] at hsb
  exact hsb.2

/-- Witness for C1: two concurrent callers for key `"s"`, both entering
before the single creation completes; the originator and the waiter then
resolve; the hypotheses hold by computation and the theorem applies. -/
theorem getOrCreateSession_single_flight_witness :
    2 ≤ ([{}, {}] : List Config).length ∧
    ((run (initNoEntry "s" [{}, {}])
        ([Label.entry 0, Label.entry 1] ++
         [Label.complete 0 envOkA, Label.resumeOrig 0, Label.resumeWaiter 1])).factoryCalls "s" ≤ 1 ∧
     (∀ c ∈ (run (initNoEntry "s" [{}, {}])
        ([Label.entry 0, Label.entry 1] ++
         [Label.complete 0 envOkA, Label.resumeOrig 0, Label.resumeWaiter 1])).callers,
       c.phase ≠ Phase.entry →
       (run (initNoEntry "s" [{}, {}])
        ([Label.entry 0, Label.entry 1] ++
         [Label.complete 0 envOkA, Label.resumeOrig 0, Label.resumeWaiter 1])).factoryCalls "s" = 1) ∧
     (∀ c1 ∈ (run (initNoEntry "s" [{}, {}])
        ([Label.entry 0, Label.entry 1] ++
         [Label.complete 0 envOkA, Label.resumeOrig 0, Label.resumeWaiter 1])).callers,
      ∀ c2 ∈ (run (initNoEntry "s" [{}, {}])
        ([Label.entry 0, Label.entry 1] ++
         [Label.complete 0 envOkA, Label.resumeOrig 0, Label.resumeWaiter 1])).callers,
      ∀ r1 r2, c1.phase = Phase.done r1 → c2.phase = Phase.done r2 → r1 = r2)) :=
  ⟨by decide,
   getOrCreateSession_single_flight "s" [{}, {}]
     [Label.entry 0, Label.entry 1]
     [Label.complete 0 envOkA, Label.resumeOrig 0, Label.resumeWaiter 1]
     (by decide) (by decide) (by decide)⟩

/-- C2 (refuting evaluation).  The eviction interleaving `raceTrace` of two
concurrent `getOrCreateSession("s")` calls against a stale entry makes the
code invoke `createSession` twice for the same key and leaves two live
browser processes (identifiers 1 and 2) created for key `"s"` at once; the
store ends up holding only the second session, so the first live browser
is leaked. -/
theorem getOrCreateSession_eviction_race :
    (run raceInit raceTrace).factoryCalls "s" = 2 ∧
    ((run raceInit raceTrace).liveBrowsers.filter (fun p => p.1 == "s")).length = 2 ∧
    ((run raceInit raceTrace).sessions "s").map (fun s => s.browser) = some (some 2) ∧
    ("s", 1) ∈ (run raceInit raceTrace).liveBrowsers := by decide

/-- C3.  Teardown closes page before context before browser (the attempted
close calls always form a sublist of that canonical order); which closes
are attempted is unaffected by close failures (each rejection is swallowed,
so no step aborts the remaining ones); and the entry is gone from the map
after the call regardless of failures. -/
theorem cleanupSession_ordered_total (sessions : String → Option Session)
    (sessionId : String) (env : TeardownEnv) :
    (cleanupSession sessions sessionId env).attempted.Sublist
      [CloseStep.closePage, CloseStep.closeContext, CloseStep.closeBrowser] ∧
    (∀ p c b, (cleanupSession sessions sessionId
        { env with pageCloseFails := p, contextCloseFails := c,
                   browserCloseFails := b }).attempted =
      (cleanupSession sessions sessionId env).attempted) ∧
    (∀ p c b, (cleanupSession sessions sessionId
        { env with pageCloseFails := p, contextCloseFails := c,
                   browserCloseFails := b }).sessions sessionId = none) ∧
    (cleanupSession sessions sessionId env).sessions sessionId = none := by
  cases h : sessions sessionId with
  | none =>
    refine ⟨?_, ?_, ?_, ?_⟩
    · simp [cleanupSession, h]
    · intro p c b
      simp [cleanupSession, h]
    · intro p c b
      simp [cleanupSession, h]
    · simp [cleanupSession, h]
  | some s =>
    refine ⟨?_, ?_, ?_, ?_⟩
    · simp only [cleanupSession, h]
      split_ifs <;> decide
    · intro p c b
      simp [cleanupSession, h]
    · intro p c b
      simp [cleanupSession, h]
    · simp [cleanupSession, h]

/-- C4.  When `createSession` fails partway (launch succeeded but a later
step failed), it closes the partially created sub-resources (the browser
always, the context if it was created) before surfacing an error; and when
the originator of a failed attempt resumes, it publishes nothing into the
sessions map, clears the pending marker for the key, and rethrows the
attempt's error — leaving the key free for a later retry. -/
theorem createSession_failure_is_clean
    (st : MgrState) (i a : Nat) (c : Caller) (k2 e : String)
    (config : Config) (env : CreateEnv) (now : Nat)
    (hc : st.callers[i]? = some c)
    (hph : c.phase = Phase.awaitCreate a)
    (hatt : st.attempts a = some (AttemptState.settled k2 (Except.error e)))
    (hL : env.launchOk = true)
    (hFail : env.newContextOk = false ∨ env.newPageOk = false) :
    (∃ msg, (createSession c.key config env now).result = Except.error msg) ∧
    env.browserId ∈ (createSession c.key config env now).closedBrowsers ∧
    (env.newContextOk = true → env.contextId ∈ (createSession c.key config env now).closedContexts) ∧
    (applyLabel st (Label.resumeOrig i)).sessions = st.sessions ∧
    (applyLabel st (Label.resumeOrig i)).pendingLaunches c.key = none ∧
    (applyLabel st (Label.resumeOrig i)).callers =
      st.callers.set i { c with phase := Phase.done (Except.error e) } := by
  refine ⟨?_, ?_, ?_, ?_, ?_, ?_⟩
  · refine ⟨"Failed to create session " ++ c.key, ?_⟩
    rcases hFail with hco | hpo
    · simp [createSession, hL, hco]
    · cases hco : env.newContextOk
      · simp [createSession, hL, hco]
      · simp [createSession, hL, hco, hpo]
  · rcases hFail with hco | hpo
    · simp [createSession, hL, hco]
    · cases hco : env.newContextOk
      · simp [createSession, hL, hco]
      · simp [createSession, hL, hco, hpo]
  · intro hco
    have hpo : env.newPageOk = false := by
      rcases hFail with h | h
      · rw [h] at hco; cases hco
      · exact h
    simp [createSession, hL, hco, hpo]
  · show (stepResumeOrig st i).sessions = st.sessions
    unfold stepResumeOrig
    simp only [hc, hph, hatt]
  · show (stepResumeOrig st i).pendingLaunches c.key = none
    unfold stepResumeOrig
    simp only [hc, hph, hatt]
    simp
  · show (stepResumeOrig st i).callers = st.callers.set i { c with phase := Phase.done (Except.error e) }
    unfold stepResumeOrig
    simp only [hc, hph, hatt]

/-- Witness for C4: a concrete failed attempt (page step failed after
launch and context succeeded) resumed by its originator. -/
theorem createSession_failure_is_clean_witness :
    (∃ msg, (createSession "s" {} envPageFails 0).result = Except.error msg) ∧
    (7 : Nat) ∈ (createSession "s" {} envPageFails 0).closedBrowsers ∧
    (envPageFails.newContextOk = true →
      (8 : Nat) ∈ (createSession "s" {} envPageFails 0).closedContexts) ∧
    (applyLabel failedAttemptState (Label.resumeOrig 0)).sessions = failedAttemptState.sessions ∧
    (applyLabel failedAttemptState (Label.resumeOrig 0)).pendingLaunches "s" = none ∧
    (applyLabel failedAttemptState (Label.resumeOrig 0)).callers =
      failedAttemptState.callers.set 0
        { key := "s", config := {}, phase := Phase.done (Except.error "boom") } :=
  createSession_failure_is_clean failedAttemptState 0 0
    { key := "s", config := {}, phase := Phase.awaitCreate 0 } "s" "boom" {} envPageFails 0
    rfl rfl (by decide) rfl (Or.inr rfl)

/-- C5 counterexample: two timer ticks while the first pass is still
running leave two `cleanupExpiredSessions` passes executing concurrently —
the second tick is not skipped. -/
theorem startCleanupTimer_overlap :
    (sweepRun { running := 0, started := 0 } [SweepEvent.tick, SweepEvent.tick]).running = 2 := by
  decide

/-- Started-pass count of a sweeper execution. -/
theorem sweepRun_started (s : SweeperState) (es : List SweepEvent) :
    (sweepRun s es).started = s.started + countTicks es := by
  induction es generalizing s with
  | nil => simp [sweepRun, countTicks]
  | cons e es ih =>
    cases e with
    | tick =>
      show (sweepRun (sweepStep s SweepEvent.tick) es).started = s.started + countTicks (SweepEvent.tick :: es)
      rw [ih]
      simp [sweepStep, countTicks]
      omega
    | finish =>
      show (sweepRun (sweepStep s SweepEvent.finish) es).started = s.started + countTicks (SweepEvent.finish :: es)
      rw [ih]
      simp [sweepStep, countTicks]

/-- Running-pass count after consecutive ticks. -/
theorem sweepRun_ticks_running (s : SweeperState) (n : Nat) :
    (sweepRun s (List.replicate n SweepEvent.tick)).running = s.running + n := by
  induction n generalizing s with
  | zero => simp [sweepRun]
  | succ n ih =>
    rw [List.replicate_succ]
    show (sweepRun (sweepStep s SweepEvent.tick) (List.replicate n SweepEvent.tick)).running = s.running + (n + 1)
    rw [ih]
    simp [sweepStep]
    omega

/-- C5 amended: the timer installed by `startCleanupTimer` has no
re-entrancy guard — every tick starts a `cleanupExpiredSessions` pass
(none is ever skipped), so `n` ticks during a slow pass give `n`
concurrently running passes. -/
theorem startCleanupTimer_no_guard (es : List SweepEvent) (n : Nat) :
    (sweepRun { running := 0, started := 0 } es).started = countTicks es ∧
    (sweepRun { running := 0, started := 0 } (List.replicate n SweepEvent.tick)).running = n := by
  constructor
  · rw [sweepRun_started]
    simp
  · rw [sweepRun_ticks_running]
    simp

/-- C6 counterexample: an entry stored with `browserType: 'firefox'` fails
validation and is implicitly recreated by a caller that supplies no
config; the recreated session is a default `'chromium'` one — the evicted
entry's stored configuration is not reused. -/
theorem recreation_ignores_stored_config :
    ((run (recreateInit storedFirefox {}) (recreateTrace envOkA)).sessions "s").map
      (fun s => s.config.browserType) = some "chromium" ∧
    storedFirefox.config.browserType = "firefox" := by decide

/-- C6 amended: on implicit recreation the new session is created from the
caller's own `config` argument (so from the destructuring defaults
`chromium`/headless when the caller supplies none); the evicted entry's
stored configuration is never consulted, whatever it was. -/
theorem recreation_uses_caller_config (stored : Session) (callerCfg : Config)
    (env : CreateEnv) (h1 : env.launchOk = true) (h2 : env.newContextOk = true)
    (h3 : env.newPageOk = true) :
    ((run (recreateInit stored callerCfg) (recreateTrace env)).sessions stored.sessionId).map
      (fun s => s.config) = some (resolveConfig callerCfg) := by
  simp [run, recreateTrace, applyLabel, stepEntry, stepValidated, stepCleaned,
    stepStartCreate, stepComplete, stepResumeOrig, startCreation, recreateInit,
    createSession, h1, h2, h3]

/-- Witness for C6 amended: a stored firefox entry recreated by a caller
asking for webkit yields a webkit session. -/
theorem recreation_uses_caller_config_witness :
    ((run (recreateInit storedFirefox { browserType := some "webkit" })
        (recreateTrace envOkA)).sessions storedFirefox.sessionId).map
      (fun s => s.config) = some (resolveConfig { browserType := some "webkit" }) :=
  recreation_uses_caller_config storedFirefox { browserType := some "webkit" } envOkA
    rfl rfl rfl

/-- C7 counterexample: an entry whose `context` sub-part is null but whose
browser is connected and whose page answers the probe is reported alive —
the structural check of `validateSession` covers `page` and `browser` but
not `context`. -/
theorem validateSession_ignores_null_context :
    noContextSession.context = none ∧
    validateSession (some noContextSession) { connected := true, evalFails := false } = true := by
  decide

/-- C7 amended: `validateSession` is total and Boolean-valued; a missing
session, a null `page`, a null `browser`, a disconnected browser, and any
probe error each yield `false` — but a null `context` is not checked and
does not by itself make the result `false`. -/
theorem validateSession_amended (session : Option Session) (env : ProbeEnv) :
    (session = none → validateSession session env = false) ∧
    (∀ s, session = some s → s.page = none → validateSession session env = false) ∧
    (∀ s, session = some s → s.browser = none → validateSession session env = false) ∧
    (env.connected = false → validateSession session env = false) ∧
    (env.evalFails = true → validateSession session env = false) := by
  refine ⟨?_, ?_, ?_, ?_, ?_⟩
  · intro h
    rw [h]
    rfl
  · intro s hs hp
    rw [hs]
    simp [validateSession, hp]
  · intro s hs hb
    rw [hs]
    simp [validateSession, hb]
  · intro h
    cases session with
    | none => rfl
    | some s => simp [validateSession, h]
  · intro h
    cases session with
    | none => rfl
    | some s => simp [validateSession, h]

/-- Witness for C7 amended: each "not alive" case evaluated at a concrete
input. -/
theorem validateSession_amended_witness :
    validateSession none { connected := true, evalFails := false } = false ∧
    validateSession (some noPageSession) { connected := true, evalFails := false } = false ∧
    validateSession (some noBrowserSession) { connected := true, evalFails := false } = false ∧
    validateSession (some deadEntry) { connected := false, evalFails := false } = false ∧
    validateSession (some deadEntry) { connected := true, evalFails := true } = false :=
  ⟨(validateSession_amended none { connected := true, evalFails := false }).1 rfl,
   (validateSession_amended (some noPageSession)
      { connected := true, evalFails := false }).2.1 noPageSession rfl rfl,
   (validateSession_amended (some noBrowserSession)
      { connected := true, evalFails := false }).2.2.1 noBrowserSession rfl rfl,
   (validateSession_amended (some deadEntry)
      { connected := false, evalFails := false }).2.2.2.1 rfl,
   (validateSession_amended (some deadEntry)
      { connected := true, evalFails := true }).2.2.2.2 rfl⟩

/-- C8.  `cleanupSession` is total (every branch returns; every rejection
is caught) and idempotent: after one call the key is absent; a second call
on the resulting map (with any probe outcomes) changes nothing, attempts
no close call, and leaves the key absent.  The unknown-key case is the
`sessions sessionId = none` instance. -/
theorem cleanupSession_idempotent (sessions : String → Option Session)
    (sessionId : String) (env env2 : TeardownEnv) :
    (cleanupSession sessions sessionId env).sessions sessionId = none ∧
    (cleanupSession ((cleanupSession sessions sessionId env).sessions) sessionId env2).sessions =
      (cleanupSession sessions sessionId env).sessions ∧
    (cleanupSession ((cleanupSession sessions sessionId env).sessions) sessionId env2).attempted = [] ∧
    (cleanupSession ((cleanupSession sessions sessionId env).sessions) sessionId env2).sessions
      sessionId = none := by
  cases h : sessions sessionId with
  | none =>
    refine ⟨?_, ?_, ?_, ?_⟩ <;> simp [cleanupSession, h]
  | some s =>
    have hdel : (cleanupSession sessions sessionId env).sessions =
        fun k => if k = sessionId then none else sessions k := by
      simp [cleanupSession, h]
    rw [hdel]
    refine ⟨by simp, ?_, ?_, ?_⟩ <;> simp [cleanupSession]

/-- C9 counterexample: none of the external calls is given a time bound by
the code — the launch options built from an empty config carry no timeout,
and the validation probe and the three teardown calls are issued with no
options at all. -/
theorem no_timeout_configured :
    (launchOptions {}).timeout = none ∧
    validationProbeCall.timeout = none ∧
    pageCloseCall.timeout = none ∧
    contextCloseCall.timeout = none ∧
    browserCloseCall.timeout = none := by decide

/-- C9 amended: the code imposes no timeout of its own on creation,
validation, or teardown — a timeout reaches the launch call only if the
caller passed one in `config`, and the probe and close calls carry none;
an error raised by the validation probe (which is how a library-level
timeout would surface) is nevertheless treated as "not alive". -/
theorem timeout_behaviour_amended (config : Config) (session : Option Session)
    (env : ProbeEnv) (hfail : env.evalFails = true) :
    (launchOptions config).timeout = config.timeout ∧
    validationProbeCall.timeout = none ∧
    pageCloseCall.timeout = none ∧
    contextCloseCall.timeout = none ∧
    browserCloseCall.timeout = none ∧
    validateSession session env = false := by
  refine ⟨rfl, rfl, rfl, rfl, rfl, ?_⟩
  cases session with
  | none => rfl
  | some s => simp [validateSession, hfail]

/-- Witness for C9 amended: concrete empty config and a failing probe. -/
theorem timeout_behaviour_amended_witness :
    (launchOptions {}).timeout = none ∧
    validationProbeCall.timeout = none ∧
    pageCloseCall.timeout = none ∧
    contextCloseCall.timeout = none ∧
    browserCloseCall.timeout = none ∧
    validateSession (some deadEntry) { connected := true, evalFails := true } = false :=
  timeout_behaviour_amended {} (some deadEntry) { connected := true, evalFails := true } rfl

/-- C10.  When the stored entry for a key passes validation,
`getOrCreateSession` returns that entry (only refreshing `lastUsed`),
whatever configuration the call supplied: no factory call happens, the
stored resource identity and stored config are kept, and the
`launch_browser` success message reports the stored `browserType`, not the
requested one — the conclusion does not depend on `cfg` at all. -/
theorem getOrCreateSession_reuses_valid_entry (s0 : Session) (cfg : Config) (now : Nat) :
    (run (reuseInit s0 cfg now) reuseTrace).factoryCalls s0.sessionId = 0 ∧
    (run (reuseInit s0 cfg now) reuseTrace).sessions s0.sessionId =
      some { s0 with lastUsed := now } ∧
    (run (reuseInit s0 cfg now) reuseTrace).callers =
      [{ key := s0.sessionId, config := cfg,
         phase := Phase.done (Except.ok { s0 with lastUsed := now }) }] ∧
    ({ s0 with lastUsed := now } : Session).browser = s0.browser ∧
    ({ s0 with lastUsed := now } : Session).config = s0.config ∧
    launchBrowserMessage s0.sessionId { s0 with lastUsed := now } =
      "Browser launched successfully with session ID: " ++ s0.sessionId ++
        " (" ++ s0.config.browserType ++ ")" := by
  refine ⟨?_, ?_, ?_, rfl, rfl, rfl⟩ <;>
    simp [run, reuseTrace, applyLabel, stepEntry, stepValidated, reuseInit]

